import Mathlib

/-!
Verification of the trubrics-sdk feedback components
(src/trubrics/components/base.py): the what-if counterfactual form builder
(BaseComponent.generate_what_if) and the feedback assembler
(BaseComponent.feedback), shallowly embedded in Lean 4.

Pandas dataframes are modelled as ordered lists of named, typed columns
whose cells are rationals (numeric dtypes), strings, or missing values.
Streamlit widget calls are modelled as requests handed to an external
renderer, a structure of pure functions supplied by the caller.
-/

/-- Inferred dtype of a pandas column, as far as the code observes it:
is_numeric_dtype either holds or does not. -/
inductive DType where
  | numeric
  | text
deriving DecidableEq

/-- One cell of a dataframe: a numeric value (floats idealised as rationals),
a string, or a missing value (NaN / None). -/
inductive Val where
  | num (q : ℚ)
  | str (s : String)
  | na
deriving DecidableEq

/-- One dataframe column: name, inferred dtype, and the observed cells. -/
structure Column where
  name : String
  dtype : DType
  values : List Val
deriving DecidableEq

/-- A pandas DataFrame: ordered sequence of columns. -/
abbrev DataFrame := List Column

/-- Modelled from the spec: DataContext is defined in trubrics.context, which
is not among the sources; its fields follow the Dataset Schema Model of the
spec and their use in base.py (testing_data, target_column, business_columns,
categorical_columns). -/
structure DataContext where
  testing_data : DataFrame
  target_column : String
  business_columns : Option (List (String × String))
  categorical_columns : Option (List String)

/-- Errors raised by the component code. SchemaError, ValueError and
NotImplementedError are the Python exception classes raised in base.py;
keyError models the pandas KeyError raised by DataFrame.drop or column
lookup with an absent label. The spec names these SchemaMismatchError,
MissingConfigurationError and UnsupportedColumnTypeError respectively. -/
inductive Err where
  | schemaError (msg : String)
  | keyError (col : String)
  | valueError (msg : String)
  | notImplemented (msg : String)
deriving DecidableEq

/-- A value-collection request handed to the widget renderer: st.slider,
st.selectbox (over dataframe cells) or st.number_input, with the label and
the bounds / choices / default computed by the code. -/
inductive WidgetReq where
  | slider (label : String) (minValue maxValue default : ℤ)
  | selectboxVals (label : String) (choices : List Val)
  | numberInput (label : String) (minValue maxValue default : ℤ)
deriving DecidableEq

/-- The external widget renderer: for each widget kind, a pure function from
the request to the value the human chose. Streamlit guarantees the returned
value is drawn from the offered domain; that guarantee is an explicit
honesty hypothesis where a theorem needs it. -/
structure Renderer where
  selectString : String → List String → String
  selectVal : String → List Val → Val
  slider : String → ℤ → ℤ → ℤ → ℤ
  numberInput : String → ℤ → ℤ → ℤ → ℤ
  textInput : String → String → String
  button : String → Bool

/-- Numeric cells of a column, missing values skipped (pandas min/max/mean
default to skipna=True). -/
def numericValues (c : Column) : List ℚ :=
  c.values.filterMap (fun v => match v with | .num q => some q | _ => none)

/-- Minimum of a list of rationals (series.min(), 0 as junk on empty where
pandas would yield NaN). -/
def listMin : List ℚ → ℚ
  | [] => 0
  | x :: xs => xs.foldl min x

/-- Maximum of a list of rationals (series.max()). -/
def listMax : List ℚ → ℚ
  | [] => 0
  | x :: xs => xs.foldl max x

/-- Arithmetic mean of a list of rationals (series.mean()). -/
def listMean (l : List ℚ) : ℚ := l.sum / (l.length : ℚ)

/-- Python int() on a number: truncation toward zero. -/
def pyInt (q : ℚ) : ℤ := if 0 ≤ q then ⌊q⌋ else ⌈q⌉

/-- Python round() to an integer: round half to even. -/
def pythonRound (q : ℚ) : ℤ :=
  if q - ⌊q⌋ < 1/2 then ⌊q⌋
  else if (1 : ℚ)/2 < q - ⌊q⌋ then ⌊q⌋ + 1
  else if ⌊q⌋ % 2 = 0 then ⌊q⌋ else ⌊q⌋ + 1

/-- pandas Series.unique: distinct elements in order of first occurrence. -/
def pandasUniqueAux {α : Type} [DecidableEq α] : List α → List α → List α
  | [], _ => []
  | x :: xs, seen => if x ∈ seen then pandasUniqueAux xs seen
                     else x :: pandasUniqueAux xs (x :: seen)

/-- pandas Series.unique over a list of cells. -/
def pandasUnique {α : Type} [DecidableEq α] (l : List α) : List α :=
  pandasUniqueAux l []

/-- series.dropna(): remove missing values. -/
def dropNA (l : List Val) : List Val := l.filter (fun v => v != .na)

/-- Whether the dataframe has a column with the given name. -/
def containsColumn (df : DataFrame) (name : String) : Bool :=
  df.any (fun c => c.name == name)

/-- df[name]: the cells of the named column. pandas raises KeyError when the
label is absent; theorems about code paths that perform this lookup carry a
containsColumn hypothesis, and the empty-list default is never reached
under it. -/
def columnValues (df : DataFrame) (name : String) : List Val :=
  match df.find? (fun c => c.name == name) with
  | some c => c.values
  | none => []

/-- df.drop(columns=[t]): remove the column labelled t, KeyError when it is
absent (pandas default errors behaviour). -/
def dropColumnE (df : DataFrame) (t : String) : Except Err DataFrame :=
  if containsColumn df t then .ok (df.filter (fun c => c.name != t))
  else .error (.keyError t)

/-- The name/dtype schema of a dataframe, values forgotten. -/
def columnSchema (df : DataFrame) : List (String × DType) :=
  df.map (fun c => (c.name, c.dtype))

/-- Modelled from the spec: schema_is_equal lives in trubrics.utils.pandas,
which is not among the sources. Per the spec, two datasets are
schema-compatible when their column name/type sets structurally match,
column for column and order-independent; row values are ignored. -/
def schema_is_equal (df1 df2 : DataFrame) : Bool :=
  let s1 := columnSchema df1
  let s2 := columnSchema df2
  s1.length == s2.length && s1.all (fun p => s1.count p == s2.count p)

/-- The business-alias renaming applied to one column label inside the
what-if loop: the alias when business_columns is present and has the key,
the raw name otherwise. -/
def renamedColumn (data : DataContext) (col : String) : String :=
  match data.business_columns with
  | some bc =>
      match bc.find? (fun p => p.1 == col) with
      | some p => p.2
      | none => col
  | none => col

/-- The body of the per-column loop of generate_what_if: classify one
column and produce the widget request, or raise. Numeric categorical
columns get a slider over [int(min), int(max)] with default round(mean);
non-numeric categorical columns a selectbox over the distinct non-missing
cells; numeric non-categorical columns a number_input with default
int(mean); anything else raises NotImplementedError naming the column.
The categorical_columns None check precedes the classification. -/
def whatIfColumn (data : DataContext) (c : Column) : Except Err WidgetReq :=
  let renamed := renamedColumn data c.name
  match data.categorical_columns with
  | none => .error (.valueError "Categorical columns must be specified for the What-If tool.")
  | some cats =>
      if c.name ∈ cats then
        if c.dtype = .numeric then
          .ok (.slider renamed (pyInt (listMin (numericValues c)))
                (pyInt (listMax (numericValues c)))
                (pythonRound (listMean (numericValues c))))
        else
          .ok (.selectboxVals renamed (pandasUnique (dropNA c.values)))
      else if c.dtype = .numeric then
        .ok (.numberInput renamed (pyInt (listMin (numericValues c)))
              (pyInt (listMax (numericValues c)))
              (pyInt (listMean (numericValues c))))
      else
        .error (.notImplemented ("Columns \x27" ++ c.name ++ "\x27 type is not recognised."))

/-- Handing a widget request to the renderer and reading back the chosen
cell value (slider and number_input return Python ints). -/
def applyRender (R : Renderer) : WidgetReq → Val
  | .slider l lo hi d => .num (R.slider l lo hi d)
  | .selectboxVals l cs => R.selectVal l cs
  | .numberInput l lo hi d => .num (R.numberInput l lo hi d)

/-- The loop of generate_what_if: one widget per column of the basis frame,
collecting out_df[col] = [value] keyed by the original column name, in
column order; the first per-column failure aborts the whole row. -/
def buildRow (data : DataContext) (R : Renderer) : DataFrame → Except Err (List (String × Val))
  | [] => .ok []
  | c :: rest =>
      match whatIfColumn data c with
      | .error e => .error e
      | .ok req =>
          match buildRow data R rest with
          | .error e => .error e
          | .ok row => .ok ((c.name, applyRender R req) :: row)

/-- The prologue of generate_what_if: choose the basis frame. With no
override, the testing data minus the target column; with an override, the
schema gate (schema_is_equal against the testing data) then the same drop,
or SchemaError. -/
def resolveBasis (data : DataContext) (wiData : Option DataFrame) : Except Err DataFrame :=
  match wiData with
  | none => dropColumnE data.testing_data data.target_column
  | some w =>
      if schema_is_equal w data.testing_data then dropColumnE w data.target_column
      else .error (.schemaError "Schemas of provided data and DataContext testing data are different.")

/-- BaseComponent.generate_what_if: basis-frame resolution followed by the
per-column widget loop. -/
def generate_what_if (data : DataContext) (wiData : Option DataFrame) (R : Renderer) :
    Except Err (List (String × Val)) :=
  match resolveBasis data wiData with
  | .error e => .error e
  | .ok df => buildRow data R df

/-- Modelled from the spec: DataContext.list_features is defined in
trubrics.context, which is not among the sources; per the spec the feature
list is the dataset columns minus the target column. -/
def list_features (data : DataContext) : List String :=
  (data.testing_data.filter (fun c => c.name != data.target_column)).map Column.name

/-- One metadata payload value of a feedback record: a string, a cell
value, an integer, or an attached counterfactual row. -/
inductive MetaVal where
  | s (v : String)
  | v (x : Val)
  | n (i : ℤ)
  | row (r : List (String × Val))
deriving DecidableEq

/-- TrubricContext (from trubrics.context, not among the sources): the
feedback record, a feedback-type tag plus the variant-specific metadata
dict in insertion order, as base.py constructs it. -/
structure TrubricContext where
  test_type : String
  metadata : List (String × MetaVal)
deriving DecidableEq

/-- Observable outcome of one run of BaseComponent.feedback: the record it
assembled, the record handed to save_test_to_json if the send button was
pressed (none otherwise), and the log line emitted on send. -/
structure FeedbackOutcome where
  record : TrubricContext
  saved : Option TrubricContext
  logMsg : Option String
deriving DecidableEq

/-- The closed tuple of feedback-type labels offered by the selectbox, in
source order. -/
def feedbackTypeOptions : List String :=
  ["Single prediction error", "Bias", "Important features", "Other"]

/-- BaseComponent._collect_single_edge_case: a selectbox over the distinct
values of the target column of the testing data (unique without dropna),
with the fixed description. -/
def collect_single_edge_case (data : DataContext) (R : Renderer) : Val × String :=
  (R.selectVal "The model prediction for this edge case should be:"
     (pandasUnique (columnValues data.testing_data data.target_column)),
   "A single edge case.")

/-- BaseComponent._collect_important_features_feedback: a selectbox over the
feature list, a slider over [1, number of features] (streamlit defaults the
value to min_value), and the fixed description. -/
def collect_important_features_feedback (data : DataContext) (R : Renderer) :
    String × ℤ × String :=
  let features := list_features data
  (R.selectString "Choose model feature:" features,
   R.slider "The selected feature should be in the top ... features:" 1
     (features.length : ℤ) 1,
   "Most important features.")

/-- The metadata-collection branch of BaseComponent.feedback: given the
chosen feedback-type label, build the variant-specific metadata dict in the
insertion order of base.py (Other / Single prediction error / Important
features / Bias), NotImplementedError on any other label. -/
def feedbackMetadata (data : DataContext) (R : Renderer) (what_if_df : List (String × Val))
    (test_type : String) : Except Err (List (String × MetaVal)) :=
  if test_type = "Other" then
    .ok [("description", .s (R.textInput "" "Send free text feedback here"))]
  else if test_type = "Single prediction error" then
    let cd := collect_single_edge_case data R
    .ok [("corrected_prediction", .v cd.1), ("description", .s cd.2),
         ("input", .row what_if_df)]
  else if test_type = "Important features" then
    let sftd := collect_important_features_feedback data R
    .ok [("selected_feature", .s sftd.1), ("top_n_feature", .n sftd.2.1),
         ("description", .s sftd.2.2)]
  else if test_type = "Bias" then
    .ok [("description", .s "Feedback on bias.")]
  else
    .error (.notImplemented "")

/-- BaseComponent.feedback: select a feedback type, build the
variant-specific metadata, assemble the TrubricContext, and on the send
button hand it to the persistence sink and log where it went based on the
tracking flag. -/
def feedback (data : DataContext) (R : Renderer) (what_if_df : List (String × Val))
    (tracking : Bool) : Except Err FeedbackOutcome :=
  let test_type := R.selectString "Choose feedback type:" feedbackTypeOptions
  match feedbackMetadata data R what_if_df test_type with
  | .error e => .error e
  | .ok md =>
      let t_ctx : TrubricContext := ⟨test_type, md⟩
      if R.button "Send feedback" then
        .ok ⟨t_ctx, some t_ctx,
             some (if tracking then "Predictions saved to Trubrics UI."
                   else "Predictions saved locally.")⟩
      else
        .ok ⟨t_ctx, none, none⟩

/-! ## Concrete sessions used as witnesses -/

/-- A scripted renderer: every widget returns its first choice or its lower
bound; the send button is pressed. -/
def exRenderer : Renderer :=
  ⟨fun _ cs => cs.headD "", fun _ cs => cs.headD .na,
   fun _ lo _ _ => lo, fun _ lo _ _ => lo, fun _ d => d, fun _ => true⟩

/-- Reference session: numeric target plus one numeric categorical
feature column. -/
def refData : DataContext :=
  ⟨[⟨"target", .numeric, [.num 0, .num 1]⟩, ⟨"x", .numeric, [.num 1, .num 3]⟩],
   "target", none, some ["x"]⟩

/-- An override with the same column name/type set as refData (order
shuffled) but different row values. -/
def overrideSameSchema : DataFrame :=
  [⟨"x", .numeric, [.num 7]⟩, ⟨"target", .numeric, [.num 5]⟩]

/-- A second override with the same schema as overrideSameSchema and yet
other row values. -/
def overrideSameSchema2 : DataFrame :=
  [⟨"x", .numeric, [.num 9]⟩, ⟨"target", .numeric, [.num 2]⟩]

/-- An override whose first column name differs from refData's schema. -/
def overrideBadSchema : DataFrame :=
  [⟨"y", .numeric, [.num 7]⟩, ⟨"target", .numeric, [.num 5]⟩]

/-- A schema holding only the target column, with categorical_columns
absent. -/
def soloTargetData : DataContext :=
  ⟨[⟨"target", .numeric, [.num 1]⟩], "target", none, none⟩

/-- A schema with one feature column but categorical_columns absent. -/
def noCatsData : DataContext :=
  ⟨[⟨"target", .numeric, [.num 1]⟩, ⟨"x", .numeric, [.num 2]⟩], "target", none, none⟩

/-- A schema with a text feature column that is not listed as
categorical. -/
def textColData : DataContext :=
  ⟨[⟨"target", .numeric, [.num 1]⟩, ⟨"note", .text, [.str "a"]⟩], "target", none, some []⟩

/-- A numeric categorical feature column holding the single observed value
0.6: the slider default round(mean) = 1 escapes both the observed range
[0.6, 0.6] and the request's own int-cast bounds [0, 0]. -/
def floatCatCol : Column := ⟨"x", .numeric, [.num (3/5)]⟩

/-- Session whose categorical numeric column is floatCatCol. -/
def floatCatData : DataContext :=
  ⟨[⟨"target", .numeric, [.num 0]⟩, floatCatCol], "target", none, some ["x"]⟩

/-- Integer-valued numeric categorical column used to witness the amended
C2. -/
def ageCol : Column := ⟨"age", .numeric, [.num 20, .num 40]⟩

/-- Session whose categorical numeric column is ageCol. -/
def intCatData : DataContext :=
  ⟨[⟨"target", .numeric, [.num 0]⟩, ageCol], "target", none, some ["age"]⟩

/-- A scripted renderer that always picks the label "unknown". -/
def unknownTypeRenderer : Renderer :=
  ⟨fun _ _ => "unknown", fun _ cs => cs.headD .na,
   fun _ lo _ _ => lo, fun _ lo _ _ => lo, fun _ d => d, fun _ => true⟩

/-- A scripted renderer that picks the single-prediction-error branch. -/
def sprRenderer : Renderer :=
  ⟨fun _ _ => "Single prediction error", fun _ cs => cs.headD .na,
   fun _ lo _ _ => lo, fun _ lo _ _ => lo, fun _ d => d, fun _ => true⟩

/-- A scripted renderer that picks the important-features branch and
otherwise honours the offered widget domains. -/
def impRenderer : Renderer :=
  ⟨fun _ cs => if "Important features" ∈ cs then "Important features" else cs.headD "",
   fun _ cs => cs.headD .na, fun _ lo _ _ => lo, fun _ lo _ _ => lo,
   fun _ d => d, fun _ => true⟩

/-! ## Helper lemmas about the column statistics -/

theorem foldl_min_mem (xs : List ℚ) (a : ℚ) : xs.foldl min a ∈ a :: xs := by
  induction xs generalizing a with
  | nil => simp
  | cons x t ih =>
      have h := ih (min a x)
      simp only [List.foldl_cons]
      rcases List.mem_cons.mp h with h1 | h1
      · rcases min_choice a x with hm | hm
        · rw [h1, hm]; exact List.mem_cons_self _ _
        · rw [h1, hm]; exact List.mem_cons_of_mem _ (List.mem_cons_self _ _)
      · exact List.mem_cons_of_mem _ (List.mem_cons_of_mem _ h1)

theorem foldl_min_le (xs : List ℚ) (a : ℚ) :
    xs.foldl min a ≤ a ∧ ∀ x ∈ xs, xs.foldl min a ≤ x := by
  induction xs generalizing a with
  | nil => simp
  | cons x t ih =>
      obtain ⟨h1, h2⟩ := ih (min a x)
      refine ⟨le_trans h1 (min_le_left a x), ?_⟩
      intro y hy
      rcases List.mem_cons.mp hy with rfl | hy
      · exact le_trans h1 (min_le_right a y)
      · exact h2 y hy

theorem foldl_max_mem (xs : List ℚ) (a : ℚ) : xs.foldl max a ∈ a :: xs := by
  induction xs generalizing a with
  | nil => simp
  | cons x t ih =>
      have h := ih (max a x)
      simp only [List.foldl_cons]
      rcases List.mem_cons.mp h with h1 | h1
      · rcases max_choice a x with hm | hm
        · rw [h1, hm]; exact List.mem_cons_self _ _
        · rw [h1, hm]; exact List.mem_cons_of_mem _ (List.mem_cons_self _ _)
      · exact List.mem_cons_of_mem _ (List.mem_cons_of_mem _ h1)

theorem le_foldl_max (xs : List ℚ) (a : ℚ) :
    a ≤ xs.foldl max a ∧ ∀ x ∈ xs, x ≤ xs.foldl max a := by
  induction xs generalizing a with
  | nil => simp
  | cons x t ih =>
      obtain ⟨h1, h2⟩ := ih (max a x)
      refine ⟨le_trans (le_max_left a x) h1, ?_⟩
      intro y hy
      rcases List.mem_cons.mp hy with rfl | hy
      · exact le_trans (le_max_right a y) h1
      · exact h2 y hy

theorem listMin_mem {l : List ℚ} (h : l ≠ []) : listMin l ∈ l := by
  cases l with
  | nil => exact absurd rfl h
  | cons x xs => exact foldl_min_mem xs x

theorem listMax_mem {l : List ℚ} (h : l ≠ []) : listMax l ∈ l := by
  cases l with
  | nil => exact absurd rfl h
  | cons x xs => exact foldl_max_mem xs x

theorem listMin_le_of_mem {l : List ℚ} {x : ℚ} (hx : x ∈ l) : listMin l ≤ x := by
  cases l with
  | nil => simp at hx
  | cons y ys =>
      rcases List.mem_cons.mp hx with rfl | hx
      · exact (foldl_min_le ys x).1
      · exact (foldl_min_le ys y).2 x hx

theorem le_listMax_of_mem {l : List ℚ} {x : ℚ} (hx : x ∈ l) : x ≤ listMax l := by
  cases l with
  | nil => simp at hx
  | cons y ys =>
      rcases List.mem_cons.mp hx with rfl | hx
      · exact (le_foldl_max ys x).1
      · exact (le_foldl_max ys y).2 x hx

theorem length_mul_le_sum {l : List ℚ} {m : ℚ} (h : ∀ x ∈ l, m ≤ x) :
    (l.length : ℚ) * m ≤ l.sum := by
  induction l with
  | nil => simp
  | cons x t ih =>
      have hx : m ≤ x := h x (List.mem_cons_self x t)
      have ht : (t.length : ℚ) * m ≤ t.sum := ih fun y hy => h y (List.mem_cons_of_mem x hy)
      simp only [List.length_cons, List.sum_cons]
      push_cast
      linarith

theorem sum_le_length_mul {l : List ℚ} {m : ℚ} (h : ∀ x ∈ l, x ≤ m) :
    l.sum ≤ (l.length : ℚ) * m := by
  induction l with
  | nil => simp
  | cons x t ih =>
      have hx : x ≤ m := h x (List.mem_cons_self x t)
      have ht : t.sum ≤ (t.length : ℚ) * m := ih fun y hy => h y (List.mem_cons_of_mem x hy)
      simp only [List.length_cons, List.sum_cons]
      push_cast
      linarith

theorem listMin_le_listMean {l : List ℚ} (h : l ≠ []) : listMin l ≤ listMean l := by
  have hl : 0 < (l.length : ℚ) := by
    have := List.length_pos.mpr h
    exact_mod_cast this
  rw [listMean, le_div_iff₀ hl]
  calc listMin l * (l.length : ℚ) = (l.length : ℚ) * listMin l := by ring
    _ ≤ l.sum := length_mul_le_sum fun x hx => listMin_le_of_mem hx

theorem listMean_le_listMax {l : List ℚ} (h : l ≠ []) : listMean l ≤ listMax l := by
  have hl : 0 < (l.length : ℚ) := by
    have := List.length_pos.mpr h
    exact_mod_cast this
  rw [listMean, div_le_iff₀ hl]
  calc l.sum ≤ (l.length : ℚ) * listMax l := sum_le_length_mul fun x hx => le_listMax_of_mem hx
    _ = listMax l * (l.length : ℚ) := by ring

theorem pythonRound_bounds {a b : ℤ} {q : ℚ} (h1 : (a : ℚ) ≤ q) (h2 : q ≤ (b : ℚ)) :
    a ≤ pythonRound q ∧ pythonRound q ≤ b := by
  have hfa : a ≤ ⌊q⌋ := Int.le_floor.mpr h1
  have hfb : ⌊q⌋ ≤ b := by
    have := Int.floor_le_floor h2
    rwa [Int.floor_intCast] at this
  have hplus : ¬ q - ⌊q⌋ < 1/2 → ⌊q⌋ + 1 ≤ b := by
    intro hge
    have hh : (1 : ℚ)/2 ≤ q - ⌊q⌋ := not_lt.mp hge
    have : (⌊q⌋ : ℚ) < (b : ℚ) := by linarith
    have hlt : ⌊q⌋ < b := by exact_mod_cast this
    omega
  unfold pythonRound
  split_ifs with hc1 hc2 hc3
  · exact ⟨hfa, hfb⟩
  · exact ⟨by omega, hplus hc1⟩
  · exact ⟨hfa, hfb⟩
  · exact ⟨by omega, hplus hc1⟩

/-! ## Structural lemmas about the what-if loop -/

theorem whatIfColumn_ok_of_good {data : DataContext} {cats : List String} {c : Column}
    (hc : data.categorical_columns = some cats)
    (hgood : c.dtype = .numeric ∨ c.name ∈ cats) :
    ∃ req, whatIfColumn data c = .ok req := by
  simp only [whatIfColumn, hc]
  split_ifs with h1 h2 h3
  · exact ⟨_, rfl⟩
  · exact ⟨_, rfl⟩
  · exact ⟨_, rfl⟩
  · rcases hgood with hg | hg
    · exact absurd hg h3
    · exact absurd hg h1

theorem whatIfColumn_unrecognised {data : DataContext} {cats : List String} {c : Column}
    (hc : data.categorical_columns = some cats)
    (hd : c.dtype ≠ .numeric) (hm : c.name ∉ cats) :
    whatIfColumn data c
      = .error (.notImplemented ("Columns \x27" ++ c.name ++ "\x27 type is not recognised.")) := by
  simp only [whatIfColumn, hc]
  rw [if_neg hm, if_neg hd]

theorem buildRow_ok_keys {data : DataContext} {R : Renderer} :
    ∀ {df : DataFrame} {row : List (String × Val)},
      buildRow data R df = .ok row → row.map Prod.fst = df.map Column.name := by
  intro df
  induction df with
  | nil =>
      intro row h
      simp only [buildRow, Except.ok.injEq] at h
      simp [← h]
  | cons c rest ih =>
      intro row h
      simp only [buildRow] at h
      cases hw : whatIfColumn data c with
      | error e => rw [hw] at h; simp at h
      | ok req =>
          rw [hw] at h
          cases hb : buildRow data R rest with
          | error e => rw [hb] at h; simp at h
          | ok row2 =>
              rw [hb] at h
              simp only [Except.ok.injEq] at h
              subst h
              simp [ih hb]

theorem buildRow_unrecognised {data : DataContext} {R : Renderer} {cats : List String}
    (hc : data.categorical_columns = some cats) :
    ∀ {df : DataFrame}, (∃ c ∈ df, c.dtype ≠ .numeric ∧ c.name ∉ cats) →
    ∃ c ∈ df, c.dtype ≠ .numeric ∧ c.name ∉ cats ∧
      buildRow data R df
        = .error (.notImplemented ("Columns \x27" ++ c.name ++ "\x27 type is not recognised.")) := by
  intro df
  induction df with
  | nil => rintro ⟨c, hc0, _⟩; simp at hc0
  | cons c0 rest ih =>
      rintro ⟨c, hcmem, hcd, hcn⟩
      by_cases hbad : c0.dtype ≠ .numeric ∧ c0.name ∉ cats
      · refine ⟨c0, List.mem_cons_self _ _, hbad.1, hbad.2, ?_⟩
        simp only [buildRow]
        rw [whatIfColumn_unrecognised hc hbad.1 hbad.2]
      · have hgood : c0.dtype = .numeric ∨ c0.name ∈ cats := by
          by_contra hng
          push_neg at hng
          exact hbad ⟨hng.1, hng.2⟩
        have hcrest : c ∈ rest := by
          rcases List.mem_cons.mp hcmem with rfl | h
          · exact absurd ⟨hcd, hcn⟩ hbad
          · exact h
        obtain ⟨c1, hc1mem, hc1d, hc1n, hc1err⟩ := ih ⟨c, hcrest, hcd, hcn⟩
        obtain ⟨req, hreq⟩ := whatIfColumn_ok_of_good hc hgood
        exact ⟨c1, List.mem_cons_of_mem _ hc1mem, hc1d, hc1n, by
          simp only [buildRow, hreq, hc1err]⟩

/-! ## C1: the override schema gate -/

/-- C1: an override dataset is accepted by generate_what_if exactly when its
column name/type set structurally equals the reference dataset's, values
ignored: the gate's verdict depends only on the column schemas (first
conjunct); on schema equality the call proceeds to the per-column loop over
the override minus the target (second conjunct); on any name/type
difference it fails with the SchemaError and produces no row (third
conjunct). -/
theorem generate_what_if_override_schema_gate
    (data : DataContext) (D2 D3 : DataFrame) (R : Renderer) :
    (columnSchema D2 = columnSchema D3 →
      schema_is_equal D2 data.testing_data = schema_is_equal D3 data.testing_data)
    ∧ (schema_is_equal D2 data.testing_data = true →
        generate_what_if data (some D2) R
          = Except.bind (dropColumnE D2 data.target_column) (buildRow data R))
    ∧ (schema_is_equal D2 data.testing_data = false →
        generate_what_if data (some D2) R
          = .error (.schemaError "Schemas of provided data and DataContext testing data are different.")) := by
  refine ⟨?_, ?_, ?_⟩
  · intro h
    simp only [schema_is_equal, h]
  · intro h
    simp only [generate_what_if, resolveBasis, h, if_true]
    cases hd : dropColumnE D2 data.target_column <;> simp [hd, Except.bind]
  · intro h
    simp [generate_what_if, resolveBasis, h]

/-- Witness for C1 at concrete data: two value-distinct, schema-equal
overrides get the same verdict; a schema-equal override is accepted; a
renamed column is rejected with the SchemaError. -/
theorem generate_what_if_override_schema_gate_witness :
    schema_is_equal overrideSameSchema refData.testing_data
      = schema_is_equal overrideSameSchema2 refData.testing_data
    ∧ generate_what_if refData (some overrideSameSchema) exRenderer
      = Except.bind (dropColumnE overrideSameSchema refData.target_column) (buildRow refData exRenderer)
    ∧ generate_what_if refData (some overrideBadSchema) exRenderer
      = .error (.schemaError "Schemas of provided data and DataContext testing data are different.") :=
  ⟨(generate_what_if_override_schema_gate refData overrideSameSchema overrideSameSchema2 exRenderer).1 rfl,
   (generate_what_if_override_schema_gate refData overrideSameSchema overrideSameSchema2 exRenderer).2.1 rfl,
   (generate_what_if_override_schema_gate refData overrideBadSchema overrideSameSchema2 exRenderer).2.2 rfl⟩

/-! ## C3: shape of a successful what-if row -/

/-- C3: every successful generate_what_if call returns one value per feature
column of the basis frame (the chosen dataset minus the target column),
keyed by the original column name, in column order; per-column failures
yield an error and hence no partial row. -/
theorem generate_what_if_row_keys (data : DataContext) (wiData : Option DataFrame)
    (R : Renderer) (row : List (String × Val))
    (h : generate_what_if data wiData R = .ok row) :
    ∃ df, resolveBasis data wiData = .ok df ∧ row.map Prod.fst = df.map Column.name := by
  unfold generate_what_if at h
  cases hb : resolveBasis data wiData with
  | error e => rw [hb] at h; simp at h
  | ok df =>
      rw [hb] at h
      exact ⟨df, rfl, buildRow_ok_keys h⟩

/-- Witness for C3: the reference session yields the row keyed exactly by
its single feature column. -/
theorem generate_what_if_row_keys_witness :
    ∃ df, resolveBasis refData none = .ok df
      ∧ ([("x", Val.num 1)] : List (String × Val)).map Prod.fst = df.map Column.name :=
  generate_what_if_row_keys refData none exRenderer [("x", Val.num 1)] rfl

/-! ## C4 and C10: the missing categorical-columns configuration -/

/-- C4 counterexample: a schema whose categorical-columns set is absent on
which generate_what_if does NOT fail — its feature set is empty, so the
per-column check never runs and the call returns an empty row. -/
theorem whatif_missing_categoricals_cex :
    soloTargetData.categorical_columns = none
    ∧ generate_what_if soloTargetData none exRenderer = .ok [] :=
  ⟨rfl, rfl⟩

/-- C4 as amended: for every call whose basis frame has at least one feature
column, a null categorical-columns set makes generate_what_if fail with the
ValueError, for every renderer alike (no widget value is consulted). -/
theorem whatif_missing_categoricals_raises (data : DataContext) (wiData : Option DataFrame)
    (R : Renderer) (basis : DataFrame)
    (hb : resolveBasis data wiData = .ok basis) (hne : basis ≠ [])
    (hcats : data.categorical_columns = none) :
    generate_what_if data wiData R
      = .error (.valueError "Categorical columns must be specified for the What-If tool.") := by
  obtain ⟨c, rest, rfl⟩ := List.exists_cons_of_ne_nil hne
  unfold generate_what_if
  rw [hb]
  simp [buildRow, whatIfColumn, hcats]

/-- Witness for the amended C4: one feature column and a null categorical
set raise the ValueError. -/
theorem whatif_missing_categoricals_raises_witness :
    generate_what_if noCatsData none exRenderer
      = .error (.valueError "Categorical columns must be specified for the What-If tool.") :=
  whatif_missing_categoricals_raises noCatsData none exRenderer
    [⟨"x", .numeric, [.num 2]⟩] rfl (List.cons_ne_nil _ _) rfl

/-- C10: with an empty feature set (every non-target column absent) the
what-if call succeeds with an empty row even when categorical_columns is
null: the missing-configuration check lives in the per-column loop body,
not up front. -/
theorem whatif_empty_feature_set_succeeds (data : DataContext) (R : Renderer)
    (hcats : data.categorical_columns = none)
    (htgt : containsColumn data.testing_data data.target_column = true)
    (hfeat : data.testing_data.filter (fun c => c.name != data.target_column) = []) :
    generate_what_if data none R = .ok [] := by
  simp [generate_what_if, resolveBasis, dropColumnE, htgt, hfeat, buildRow]

/-- Witness for C10: the schema holding only the target column. -/
theorem whatif_empty_feature_set_succeeds_witness :
    generate_what_if soloTargetData none exRenderer = .ok [] :=
  whatif_empty_feature_set_succeeds soloTargetData exRenderer rfl rfl rfl

/-! ## C5: unsupported column types -/

/-- C5: whenever the basis frame holds a feature column that is non-numeric
and not in the categorical set, generate_what_if fails with the
NotImplementedError whose message names such an offending column (the first
one the loop meets), and no row is returned. -/
theorem whatif_unsupported_column_raises (data : DataContext) (wiData : Option DataFrame)
    (R : Renderer) (basis : DataFrame) (cats : List String)
    (hb : resolveBasis data wiData = .ok basis)
    (hcats : data.categorical_columns = some cats)
    (hex : ∃ c ∈ basis, c.dtype ≠ .numeric ∧ c.name ∉ cats) :
    ∃ c ∈ basis, c.dtype ≠ .numeric ∧ c.name ∉ cats ∧
      generate_what_if data wiData R
        = .error (.notImplemented ("Columns \x27" ++ c.name ++ "\x27 type is not recognised.")) := by
  obtain ⟨c, hm, hd, hn, herr⟩ := buildRow_unrecognised (R := R) hcats hex
  refine ⟨c, hm, hd, hn, ?_⟩
  unfold generate_what_if
  rw [hb]
  exact herr

/-- Witness for C5: a text column not listed as categorical aborts the call
with the error naming it. -/
theorem whatif_unsupported_column_raises_witness :
    ∃ c ∈ ([⟨"note", .text, [.str "a"]⟩] : DataFrame),
      c.dtype ≠ .numeric ∧ c.name ∉ ([] : List String) ∧
      generate_what_if textColData none exRenderer
        = .error (.notImplemented ("Columns \x27" ++ c.name ++ "\x27 type is not recognised.")) :=
  whatif_unsupported_column_raises textColData none exRenderer
    [⟨"note", .text, [.str "a"]⟩] [] rfl rfl
    ⟨⟨"note", .text, [.str "a"]⟩, List.mem_cons_self _ _, by decide, by simp⟩

/-! ## C2: the numeric-categorical slider request -/

/-- C2 counterexample: for the numeric categorical column with observed
values {0.6}, the issued request is a slider with default 1 (the rounded
mean), yet 1 lies strictly above the maximum 0.6 of the observed values —
the default is not within [min, max] of the observed column. -/
theorem whatif_slider_default_outside_observed_range :
    whatIfColumn floatCatData floatCatCol = .ok (.slider "x" 0 0 1)
    ∧ pythonRound (listMean (numericValues floatCatCol)) = 1
    ∧ listMax (numericValues floatCatCol)
        < ((pythonRound (listMean (numericValues floatCatCol))) : ℚ) := by
  have hnv : numericValues floatCatCol = [3/5] := by
    simp [numericValues, floatCatCol]
  have hmean : listMean [(3 : ℚ)/5] = 3/5 := by
    norm_num [listMean, List.sum_cons, List.sum_nil]
  have hfl : (⌊(3/5 : ℚ)⌋ : ℤ) = 0 := by norm_num
  have hround : pythonRound (3/5 : ℚ) = 1 := by
    unfold pythonRound
    rw [hfl]
    norm_num
  have hpy : pyInt (3/5 : ℚ) = 0 := by
    unfold pyInt
    rw [if_pos (by norm_num)]
    exact hfl
  refine ⟨?_, ?_, ?_⟩
  · simp only [whatIfColumn, floatCatData, renamedColumn, hnv]
    rw [if_pos (show floatCatCol.name ∈ ["x"] by simp [floatCatCol]),
        if_pos (show floatCatCol.dtype = DType.numeric from rfl)]
    simp [listMin, listMax, hmean, hround, hpy, floatCatCol]
  · rw [hnv, hmean, hround]
  · rw [hnv, hmean, hround]
    show listMax [(3 : ℚ)/5] < ((1 : ℤ) : ℚ)
    simp only [listMax, List.foldl_nil]
    norm_num

/-- C2 as amended: for every numeric categorical feature column, the issued
request is a slider labelled with the resolved display name, bounded by the
int-cast observed min and max, whose default is exactly the rounded mean of
the observed values (unconditionally, non-integer observations included);
and whenever the observed values are all integers (the only case the
counterexample permits), that default also lies within [min, max] of the
observed values. -/
theorem whatif_numeric_categorical_slider_default (data : DataContext) (c : Column)
    (cats : List String)
    (hcats : data.categorical_columns = some cats)
    (hmem : c.name ∈ cats) (hdt : c.dtype = .numeric) :
    whatIfColumn data c
      = .ok (.slider (renamedColumn data c.name) (pyInt (listMin (numericValues c)))
          (pyInt (listMax (numericValues c))) (pythonRound (listMean (numericValues c))))
    ∧ (numericValues c ≠ [] →
        (∀ q ∈ numericValues c, ∃ z : ℤ, q = (z : ℚ)) →
        listMin (numericValues c) ≤ ((pythonRound (listMean (numericValues c))) : ℚ)
        ∧ ((pythonRound (listMean (numericValues c))) : ℚ) ≤ listMax (numericValues c)) := by
  refine ⟨?_, ?_⟩
  · simp only [whatIfColumn, hcats]
    rw [if_pos hmem, if_pos hdt]
  · intro hne hint
    obtain ⟨a, ha⟩ := hint _ (listMin_mem hne)
    obtain ⟨b, hb⟩ := hint _ (listMax_mem hne)
    have h1 : (a : ℚ) ≤ listMean (numericValues c) := ha ▸ listMin_le_listMean hne
    have h2 : listMean (numericValues c) ≤ (b : ℚ) := hb ▸ listMean_le_listMax hne
    obtain ⟨hra, hrb⟩ := pythonRound_bounds h1 h2
    constructor
    · rw [ha]
      exact_mod_cast hra
    · rw [hb]
      exact_mod_cast hrb

/-- Witness for the amended C2: the age column [20, 40] yields the slider
request with default the rounded mean, and — the observations being
integers — that default lies within the observed range. -/
theorem whatif_numeric_categorical_slider_default_witness :
    whatIfColumn intCatData ageCol
      = .ok (.slider (renamedColumn intCatData "age") (pyInt (listMin (numericValues ageCol)))
          (pyInt (listMax (numericValues ageCol))) (pythonRound (listMean (numericValues ageCol))))
    ∧ listMin (numericValues ageCol) ≤ ((pythonRound (listMean (numericValues ageCol))) : ℚ)
    ∧ ((pythonRound (listMean (numericValues ageCol))) : ℚ) ≤ listMax (numericValues ageCol) := by
  have h := whatif_numeric_categorical_slider_default intCatData ageCol ["age"] rfl
    (by simp [ageCol]) rfl
  have hint : ∀ q ∈ numericValues ageCol, ∃ z : ℤ, q = (z : ℚ) := by
    intro q hq
    have hq2 : q = 20 ∨ q = 40 := by simpa [numericValues, ageCol] using hq
    rcases hq2 with rfl | rfl
    · exact ⟨20, by norm_num⟩
    · exact ⟨40, by norm_num⟩
  obtain ⟨hlo, hhi⟩ := h.2 (by decide) hint
  exact ⟨h.1, hlo, hhi⟩

/-! ## C6 to C9: the feedback assembler -/

theorem headD_mem {α : Type} {l : List α} (d : α) (h : l ≠ []) : l.headD d ∈ l := by
  cases l with
  | nil => exact absurd rfl h
  | cons x xs => simp

/-- C6: any feedback-type label outside the closed option set makes the
assembler fail before a record is constructed; nothing is produced or
persisted. -/
theorem feedback_unknown_type_raises (data : DataContext) (R : Renderer)
    (w : List (String × Val)) (tracking : Bool)
    (h : R.selectString "Choose feedback type:" feedbackTypeOptions ∉ feedbackTypeOptions) :
    feedback data R w tracking = .error (.notImplemented "") := by
  have h1 : R.selectString "Choose feedback type:" feedbackTypeOptions ≠ "Other" := by
    intro he; exact h (by rw [he]; simp [feedbackTypeOptions])
  have h2 : R.selectString "Choose feedback type:" feedbackTypeOptions
      ≠ "Single prediction error" := by
    intro he; exact h (by rw [he]; simp [feedbackTypeOptions])
  have h3 : R.selectString "Choose feedback type:" feedbackTypeOptions
      ≠ "Important features" := by
    intro he; exact h (by rw [he]; simp [feedbackTypeOptions])
  have h4 : R.selectString "Choose feedback type:" feedbackTypeOptions ≠ "Bias" := by
    intro he; exact h (by rw [he]; simp [feedbackTypeOptions])
  have hm : feedbackMetadata data R w
      (R.selectString "Choose feedback type:" feedbackTypeOptions)
      = .error (.notImplemented "") := by
    unfold feedbackMetadata
    rw [if_neg h1, if_neg h2, if_neg h3, if_neg h4]
  simp only [feedback, hm]

/-- Witness for C6: the label "unknown" aborts the feedback flow. -/
theorem feedback_unknown_type_raises_witness :
    feedback refData unknownTypeRenderer [] false = .error (.notImplemented "") :=
  feedback_unknown_type_raises refData unknownTypeRenderer [] false (by decide)

/-- C7: on the single-prediction-error branch, the assembled record fixes
description to "A single edge case.", attaches the counterfactual row as the
input field, and the corrected prediction it stores is the renderer's answer
to a choice over exactly the distinct observed values of the target column
of the testing data (not any feature domain). -/
theorem feedback_single_prediction_error_record (data : DataContext) (R : Renderer)
    (w : List (String × Val)) (tracking : Bool)
    (ht : R.selectString "Choose feedback type:" feedbackTypeOptions = "Single prediction error")
    (htgt : containsColumn data.testing_data data.target_column = true) :
    ∃ out, feedback data R w tracking = .ok out
      ∧ out.record.test_type = "Single prediction error"
      ∧ out.record.metadata
          = [("corrected_prediction",
              .v (R.selectVal "The model prediction for this edge case should be:"
                    (pandasUnique (columnValues data.testing_data data.target_column)))),
             ("description", .s "A single edge case."),
             ("input", .row w)] := by
  have hm : feedbackMetadata data R w "Single prediction error"
      = .ok [("corrected_prediction",
              .v (R.selectVal "The model prediction for this edge case should be:"
                    (pandasUnique (columnValues data.testing_data data.target_column)))),
             ("description", .s "A single edge case."),
             ("input", .row w)] := by
    unfold feedbackMetadata
    rw [if_neg (by decide), if_pos rfl]
    rfl
  simp only [feedback, ht, hm]
  by_cases hbtn : R.button "Send feedback" = true
  · rw [if_pos hbtn]
    exact ⟨_, rfl, rfl, rfl⟩
  · rw [if_neg hbtn]
    exact ⟨_, rfl, rfl, rfl⟩

/-- Witness for C7 on the reference session. -/
theorem feedback_single_prediction_error_record_witness :
    ∃ out, feedback refData sprRenderer [("x", Val.num 1)] false = .ok out
      ∧ out.record.test_type = "Single prediction error"
      ∧ out.record.metadata
          = [("corrected_prediction",
              .v (sprRenderer.selectVal "The model prediction for this edge case should be:"
                    (pandasUnique (columnValues refData.testing_data refData.target_column)))),
             ("description", .s "A single edge case."),
             ("input", .row [("x", Val.num 1)])] :=
  feedback_single_prediction_error_record refData sprRenderer [("x", Val.num 1)] false rfl rfl

/-- C8: on the important-features branch, the record fixes description to
"Most important features.", the selected feature is the renderer's answer to
a choice over exactly the schema's feature list, and the collected rank is
the answer to a slider over [1, number of features]; for any renderer
honouring the widget domains (streamlit enforces this) the selected feature
belongs to the feature list and the rank satisfies 1 le rank le number of
features. -/
theorem feedback_important_features_record (data : DataContext) (R : Renderer)
    (w : List (String × Val)) (tracking : Bool)
    (ht : R.selectString "Choose feedback type:" feedbackTypeOptions = "Important features")
    (honestSel : ∀ p cs, cs ≠ [] → R.selectString p cs ∈ cs)
    (honestSlider : ∀ p lo hi d, lo ≤ hi →
        lo ≤ R.slider p lo hi d ∧ R.slider p lo hi d ≤ hi)
    (hne : list_features data ≠ []) :
    ∃ out, feedback data R w tracking = .ok out
      ∧ out.record.test_type = "Important features"
      ∧ out.record.metadata
          = [("selected_feature",
              .s (R.selectString "Choose model feature:" (list_features data))),
             ("top_n_feature",
              .n (R.slider "The selected feature should be in the top ... features:" 1
                    ((list_features data).length : ℤ) 1)),
             ("description", .s "Most important features.")]
      ∧ R.selectString "Choose model feature:" (list_features data) ∈ list_features data
      ∧ 1 ≤ R.slider "The selected feature should be in the top ... features:" 1
              ((list_features data).length : ℤ) 1
      ∧ R.slider "The selected feature should be in the top ... features:" 1
          ((list_features data).length : ℤ) 1 ≤ ((list_features data).length : ℤ) := by
  have hlen : (1 : ℤ) ≤ ((list_features data).length : ℤ) := by
    have hpos : 0 < (list_features data).length := List.length_pos.mpr hne
    exact_mod_cast hpos
  obtain ⟨hlo, hhi⟩ :=
    honestSlider "The selected feature should be in the top ... features:" 1
      ((list_features data).length : ℤ) 1 hlen
  have hsel := honestSel "Choose model feature:" (list_features data) hne
  have hm : feedbackMetadata data R w "Important features"
      = .ok [("selected_feature",
              .s (R.selectString "Choose model feature:" (list_features data))),
             ("top_n_feature",
              .n (R.slider "The selected feature should be in the top ... features:" 1
                    ((list_features data).length : ℤ) 1)),
             ("description", .s "Most important features.")] := by
    unfold feedbackMetadata
    rw [if_neg (by decide), if_neg (by decide), if_pos rfl]
    rfl
  simp only [feedback, ht, hm]
  by_cases hbtn : R.button "Send feedback" = true
  · rw [if_pos hbtn]
    exact ⟨_, rfl, rfl, rfl, hsel, hlo, hhi⟩
  · rw [if_neg hbtn]
    exact ⟨_, rfl, rfl, rfl, hsel, hlo, hhi⟩

theorem impRenderer_selectString_honest :
    ∀ p cs, cs ≠ [] → impRenderer.selectString p cs ∈ cs := by
  intro p cs h
  simp only [impRenderer]
  split_ifs with hmem
  · exact hmem
  · exact headD_mem _ h

theorem impRenderer_slider_honest :
    ∀ p lo hi d, lo ≤ hi →
      lo ≤ impRenderer.slider p lo hi d ∧ impRenderer.slider p lo hi d ≤ hi := by
  intro p lo hi d h
  exact ⟨le_refl lo, h⟩

/-- Witness for C8 on the reference session with its single feature. -/
theorem feedback_important_features_record_witness :
    ∃ out, feedback refData impRenderer [] false = .ok out
      ∧ out.record.test_type = "Important features"
      ∧ out.record.metadata
          = [("selected_feature",
              .s (impRenderer.selectString "Choose model feature:" (list_features refData))),
             ("top_n_feature",
              .n (impRenderer.slider "The selected feature should be in the top ... features:" 1
                    ((list_features refData).length : ℤ) 1)),
             ("description", .s "Most important features.")]
      ∧ impRenderer.selectString "Choose model feature:" (list_features refData)
          ∈ list_features refData
      ∧ 1 ≤ impRenderer.slider "The selected feature should be in the top ... features:" 1
              ((list_features refData).length : ℤ) 1
      ∧ impRenderer.slider "The selected feature should be in the top ... features:" 1
          ((list_features refData).length : ℤ) 1 ≤ ((list_features refData).length : ℤ) :=
  feedback_important_features_record refData impRenderer [] false (by decide)
    impRenderer_selectString_honest impRenderer_slider_honest (by decide)

/-- C9: two feedback runs identical except for the tracking flag hand the
same record to the persistence sink — the flag can only influence the log
line, never the record or what is saved. -/
theorem feedback_tracking_only_affects_log (data : DataContext) (R : Renderer)
    (w : List (String × Val)) (t1 t2 : Bool) :
    Except.map (fun o => (o.record, o.saved)) (feedback data R w t1)
      = Except.map (fun o => (o.record, o.saved)) (feedback data R w t2) := by
  unfold feedback
  cases hm : feedbackMetadata data R w
      (R.selectString "Choose feedback type:" feedbackTypeOptions) <;>
    cases hbtn : R.button "Send feedback" <;>
      simp [hm, hbtn, Except.map]
